import Mathlib

/-!
Verification of the space admission decision engine and participation-record
lifecycle of the Vridge personal-room backend.

The model is a shallow embedding of the Express route handlers in the space
router (`router.post('/:id/participate')`, the candidate `accept` / `reject` /
`cancel` endpoints, and the `participants` / `candidates` / `password` queries)
together with the mongoose schemas (`spaceSchema`, `participateSchema`).

MongoDB documents are modelled as Lean structures; the backing store is a `DB`
structure holding the lists of documents; each handler becomes a function from
a `DB` (and the request data) to a new `DB` paired with the response, where the
response is `Except ErrorType α` — `Except.error` for the handler's 4xx error
responses and `Except.ok` for its 200 responses.  ObjectIds are modelled as
`Nat`; an optional request-body field is an `Option String`.
-/

namespace Vridge

/-- `status` enum of `participateSchema`:
`enum: ['REJECTED', 'ACCEPTED', 'WAITING', 'CANCELED']`. -/
inductive PStatus where
  | WAITING
  | ACCEPTED
  | REJECTED
  | CANCELED
deriving DecidableEq, Repr

/-- The error kinds the space-router handlers return (each corresponds to one
4xx response body in the source): `SpaceNotExist` and `CandidateNotExist` are
the `INVALID_INPUT` "… is not exist" responses (status 400), `Forbidden` is the
`FORBIDDEN` "Only owner can accept" response (status 403), `PasswordWrong` is
`INVALID_INPUT` "Password is wrong" (status 400), and `NotPrivate` is
`INVALID_INPUT` "Not a private space" (status 400). -/
inductive ErrorType where
  | SpaceNotExist
  | CandidateNotExist
  | Forbidden
  | PasswordWrong
  | NotPrivate
deriving DecidableEq, Repr

/-- The fields of `spaceSchema` that the admission logic reads.  `password` is
not `required` in the schema; the data-model invariant of the spec is that a
space with `privateYN = true` has a non-empty stored password, so it is
modelled as a `String` (empty when absent). -/
structure Space where
  id : Nat
  ownerId : Nat
  privateYN : Bool
  lobbyYN : Bool
  password : String
  useYN : Bool
deriving DecidableEq, Repr

/-- One document of `participateSchema`: a participation record. -/
structure Participate where
  id : Nat
  userId : Nat
  spaceId : Nat
  status : PStatus
deriving DecidableEq, Repr

/-- The backing store: the `Space` and `Participate` collections, plus a
counter supplying the next fresh ObjectId for `Participate.create`. -/
structure DB where
  spaces : List Space
  participates : List Participate
  nextId : Nat
deriving DecidableEq, Repr

/-- `Space.findById(spaceId)`. -/
def findSpaceById (db : DB) (spaceId : Nat) : Option Space :=
  db.spaces.find? (fun s => s.id == spaceId)

/-- The guard every handler starts with: `Space.findById` followed by
`if (!space || !space.useYN)` — yields the space only when it exists and is
not soft-deleted. -/
def findActiveSpace (db : DB) (spaceId : Nat) : Option Space :=
  match findSpaceById db spaceId with
  | none => none
  | some s => if s.useYN then some s else none

/-- `Participate.findById(candId)`. -/
def findParticipateById (db : DB) (candId : Nat) : Option Participate :=
  db.participates.find? (fun p => p.id == candId)

/-- `Participate.create({userId, spaceId, status})`: inserts a new document
with a fresh id and returns it. -/
def createParticipate (db : DB) (userId spaceId : Nat) (status : PStatus) :
    DB × Participate :=
  let p : Participate := ⟨db.nextId, userId, spaceId, status⟩
  ({ db with participates := db.participates ++ [p], nextId := db.nextId + 1 }, p)

/-- `Participate.deleteMany({userId, spaceId})`: removes every record of the
(user, space) pair. -/
def deleteManyParticipates (db : DB) (userId spaceId : Nat) : DB :=
  { db with
    participates :=
      db.participates.filter (fun p => !(p.userId == userId && p.spaceId == spaceId)) }

/-- `Participate.updateOne({_id: candId}, {status})`: sets the status of the
record with the given id (ids are unique in the store). -/
def updateParticipateStatus (db : DB) (candId : Nat) (status : PStatus) : DB :=
  { db with
    participates :=
      db.participates.map (fun p => if p.id == candId then { p with status := status } else p) }

/-- JavaScript truthiness of the optional `password` body field: `undefined`
and the empty string are falsy. -/
def truthy : Option String → Bool
  | none => false
  | some s => !(s == "")

/-- The strict equality `space.password === password` between the stored
password (a string) and the optional supplied one (`undefined` never equals a
string). -/
def strictEq (stored : String) : Option String → Bool
  | none => false
  | some s => stored == s

/-- `router.post('/:id/participate')`: the admission decision.  Mirrors the
handler branch for branch: the active-space guard; the owner short-circuit
(`userId === space.ownerId` → create `ACCEPTED`); the lobby branch
(`if (password && space.privateYN && space.password === password)` → create
`ACCEPTED`, otherwise `deleteMany` then create `WAITING`); and the non-lobby
branch (open space → `ACCEPTED`; private space → `ACCEPTED` on password match,
"Password is wrong" otherwise).  Returns the new store and the response
`(candId, status)` or the error. -/
def participate (db : DB) (userId spaceId : Nat) (password : Option String) :
    DB × Except ErrorType (Nat × PStatus) :=
  match findActiveSpace db spaceId with
  | none => (db, .error .SpaceNotExist)
  | some space =>
    if userId == space.ownerId then
      let (db1, p) := createParticipate db userId spaceId .ACCEPTED
      (db1, .ok (p.id, .ACCEPTED))
    else if space.lobbyYN then
      if truthy password && space.privateYN && strictEq space.password password then
        let (db1, p) := createParticipate db userId spaceId .ACCEPTED
        (db1, .ok (p.id, .ACCEPTED))
      else
        let db1 := deleteManyParticipates db userId spaceId
        let (db2, p) := createParticipate db1 userId spaceId .WAITING
        (db2, .ok (p.id, .WAITING))
    else
      if !space.privateYN then
        let (db1, p) := createParticipate db userId spaceId .ACCEPTED
        (db1, .ok (p.id, .ACCEPTED))
      else if strictEq space.password password then
        let (db1, p) := createParticipate db userId spaceId .ACCEPTED
        (db1, .ok (p.id, .ACCEPTED))
      else
        (db, .error .PasswordWrong)

/-- `router.post('/:spaceId/candidates/:candId/accept')`: active-space guard,
candidate-existence guard, owner check
(`space.ownerId._id.toHexString() !== userId` → 403), then
`updateOne({_id: candId}, {status: 'ACCEPTED'})`. -/
def acceptCandidate (db : DB) (userId spaceId candId : Nat) :
    DB × Except ErrorType Unit :=
  match findActiveSpace db spaceId with
  | none => (db, .error .SpaceNotExist)
  | some space =>
    match findParticipateById db candId with
    | none => (db, .error .CandidateNotExist)
    | some _ =>
      if !(space.ownerId == userId) then (db, .error .Forbidden)
      else (updateParticipateStatus db candId .ACCEPTED, .ok ())

/-- `router.post('/:spaceId/candidates/:candId/reject')`: identical to
`acceptCandidate` except the written status is `REJECTED`. -/
def rejectCandidate (db : DB) (userId spaceId candId : Nat) :
    DB × Except ErrorType Unit :=
  match findActiveSpace db spaceId with
  | none => (db, .error .SpaceNotExist)
  | some space =>
    match findParticipateById db candId with
    | none => (db, .error .CandidateNotExist)
    | some _ =>
      if !(space.ownerId == userId) then (db, .error .Forbidden)
      else (updateParticipateStatus db candId .REJECTED, .ok ())

/-- `router.post('/:spaceId/candidates/:candId/cancel')`: active-space guard
and candidate-existence guard, then `updateOne({_id: candId},
{status: 'CANCELED'})`.  The handler reads `req.ctx.userId` but never compares
it to anything, so `userId` is an unused argument here as well. -/
def cancelCandidate (db : DB) (userId spaceId candId : Nat) :
    DB × Except ErrorType Unit :=
  match findActiveSpace db spaceId with
  | none => (db, .error .SpaceNotExist)
  | some _ =>
    match findParticipateById db candId with
    | none => (db, .error .CandidateNotExist)
    | some _ =>
      let _ := userId
      (updateParticipateStatus db candId .CANCELED, .ok ())

/-- `router.get('/:id/candidates')`: active-space guard, then
`Participate.find({$or: [{status:'WAITING'},{status:'CANCELED'}],
$and: [{spaceId}]})`. -/
def pendingCandidates (db : DB) (spaceId : Nat) :
    Except ErrorType (List Participate) :=
  match findActiveSpace db spaceId with
  | none => .error .SpaceNotExist
  | some _ =>
    .ok (db.participates.filter
      (fun p => (p.status == .WAITING || p.status == .CANCELED) && p.spaceId == spaceId))

/-- `router.get('/:id/participants')`: `Participate.find({spaceId,
status: 'ACCEPTED'})`, one response entry per matching record.  (In the source
the not-found branch is missing a `return`, so on a missing space the 400
error body is still the first and only well-formed response sent; the model
returns that error.) -/
def activeParticipants (db : DB) (spaceId : Nat) :
    Except ErrorType (List Participate) :=
  match findActiveSpace db spaceId with
  | none => .error .SpaceNotExist
  | some _ =>
    .ok (db.participates.filter
      (fun p => p.spaceId == spaceId && p.status == .ACCEPTED))

/-- `router.get('/:id/password')`: active-space guard, then
`if (!space.privateYN)` → "Not a private space", otherwise the stored
plaintext password is returned.  The handler never reads `req.ctx.userId`;
the argument is the authenticated requester supplied by the auth middleware,
unused by the handler. -/
def getSpacePassword (db : DB) (userId spaceId : Nat) :
    Except ErrorType (Nat × String) :=
  match findActiveSpace db spaceId with
  | none => .error .SpaceNotExist
  | some space =>
    if !space.privateYN then .error .NotPrivate
    else
      let _ := userId
      .ok (space.id, space.password)

/-! ### Concrete instances used by the witnesses -/

/-- Scenario-B style space: non-lobby, private, stored password `"abc"`. -/
def spB : Space := ⟨1, 10, true, false, "abc", true⟩

/-- Store holding only `spB`. -/
def dbB : DB := ⟨[spB], [], 0⟩

/-- Lobby and private space with stored password `"abc"`. -/
def spL : Space := ⟨2, 10, true, true, "abc", true⟩

/-- Store holding only `spL`. -/
def dbL : DB := ⟨[spL], [], 0⟩

/-- Scenario-C style space: lobby, not private. -/
def spC : Space := ⟨3, 10, false, true, "", true⟩

/-- Store holding only `spC`. -/
def dbC : DB := ⟨[spC], [], 0⟩

/-! ### Theorems -/

/-- C3: for every existing, non-soft-deleted space, whatever its flags and the
supplied password, a participate request by the owner immediately appends one
`ACCEPTED` record and returns it — no password check, no lobby queue, no
deletion of prior records. -/
theorem owner_participate_accepted (db : DB) (spaceId : Nat) (pw : Option String)
    (space : Space) (hs : findActiveSpace db spaceId = some space) :
    participate db space.ownerId spaceId pw
      = ({ db with
            participates := db.participates ++ [⟨db.nextId, space.ownerId, spaceId, .ACCEPTED⟩],
            nextId := db.nextId + 1 },
         .ok (db.nextId, .ACCEPTED)) := by
  simp [participate, hs, createParticipate]

/-- Witness for C3: the owner of the lobby space `spL` is admitted at once. -/
theorem owner_participate_accepted_witness :
    participate dbL 10 2 none
      = (⟨[spL], [⟨0, 10, 2, .ACCEPTED⟩], 1⟩, .ok (0, .ACCEPTED)) :=
  owner_participate_accepted dbL 2 none spL rfl

/-- C1: for a private space (with non-empty stored password) and a requester
other than the owner, participation is `ACCEPTED` iff the supplied password
equals the stored one; on a mismatch, non-lobby mode answers the
"Password is wrong" error and lobby mode queues the requester as `WAITING`. -/
theorem private_password_gate (db : DB) (userId spaceId : Nat) (pw : Option String)
    (space : Space) (hs : findActiveSpace db spaceId = some space)
    (hpriv : space.privateYN = true) (hinv : space.password ≠ "")
    (hown : userId ≠ space.ownerId) :
    ((∃ c, (participate db userId spaceId pw).2 = .ok (c, .ACCEPTED)) ↔ pw = some space.password)
    ∧ (space.lobbyYN = false → pw ≠ some space.password →
        (participate db userId spaceId pw).2 = .error .PasswordWrong)
    ∧ (space.lobbyYN = true → pw ≠ some space.password →
        ∃ c, (participate db userId spaceId pw).2 = .ok (c, .WAITING)) := by
  have hne : (userId == space.ownerId) = false := beq_eq_false_iff_ne.mpr hown
  have hpw : (space.password == "") = false := beq_eq_false_iff_ne.mpr hinv
  cases hlob : space.lobbyYN with
  | false =>
    rcases pw with _ | s
    · simp [participate, hs, hne, hlob, hpriv, strictEq]
    · by_cases hsp : space.password = s
      · subst hsp
        simp [participate, hs, hne, hlob, hpriv, strictEq, createParticipate]
      · have hsp' : (space.password == s) = false := beq_eq_false_iff_ne.mpr hsp
        simp [participate, hs, hne, hlob, hpriv, strictEq, hsp', createParticipate]
        exact fun h => hsp h.symm
  | true =>
    rcases pw with _ | s
    · simp [participate, hs, hne, hlob, hpriv, truthy, strictEq, createParticipate,
        deleteManyParticipates]
    · by_cases hsp : space.password = s
      · subst hsp
        simp [participate, hs, hne, hlob, hpriv, truthy, strictEq, hpw, createParticipate]
      · have hsp' : (space.password == s) = false := beq_eq_false_iff_ne.mpr hsp
        simp [participate, hs, hne, hlob, hpriv, truthy, strictEq, hsp', createParticipate,
          deleteManyParticipates]
        exact fun h => hsp h.symm

/-- Witness for C1: on `spB` (non-lobby, private, password `"abc"`), user 20
supplying `"wrong"` gets the "Password is wrong" error and supplying `"abc"`
is accepted. -/
theorem private_password_gate_witness :
    (participate dbB 20 1 (some "wrong")).2 = .error .PasswordWrong
    ∧ (participate dbB 20 1 (some "abc")).2 = .ok (0, .ACCEPTED) :=
  ⟨(private_password_gate dbB 20 1 (some "wrong") spB rfl rfl (by decide)
      (by decide)).2.1 rfl (by decide), rfl⟩

/-- C2: in lobby mode, a requester who is not the owner and does not supply
the correct password of a private space (the space is not private, or the
password mismatches) is always queued as `WAITING` and never `ACCEPTED`. -/
theorem lobby_always_queues (db : DB) (userId spaceId : Nat) (pw : Option String)
    (space : Space) (hs : findActiveSpace db spaceId = some space)
    (hlob : space.lobbyYN = true) (hown : userId ≠ space.ownerId)
    (hmiss : space.privateYN = false ∨ pw ≠ some space.password) :
    (∃ c, (participate db userId spaceId pw).2 = .ok (c, .WAITING))
    ∧ ∀ c, (participate db userId spaceId pw).2 ≠ .ok (c, .ACCEPTED) := by
  have hne : (userId == space.ownerId) = false := beq_eq_false_iff_ne.mpr hown
  have hcond : (truthy pw && space.privateYN && strictEq space.password pw) = false := by
    rcases hmiss with h | h
    · simp [h]
    · rcases pw with _ | s
      · simp [strictEq]
      · have hsp : space.password ≠ s := fun he => h (by simp [he])
        simp [strictEq, beq_eq_false_iff_ne.mpr hsp]
  simp [participate, hs, hne, hlob, hcond, createParticipate, deleteManyParticipates]

/-- Witness for C2: user 20 requesting the password-free lobby space `spC`
with no password is queued, not accepted. -/
theorem lobby_always_queues_witness :
    (participate dbC 20 3 none).2 = .ok (0, .WAITING)
    ∧ (participate dbC 20 3 none).2 ≠ .ok (0, .ACCEPTED) :=
  ⟨rfl, (lobby_always_queues dbC 20 3 none spC rfl rfl (by decide) (Or.inl rfl)).2 0⟩

/-! ### Helper lemmas -/

/-- Filtering with `p` after keeping only the elements failing `p` leaves
nothing. -/
theorem filter_not_filter {α} (p : α → Bool) (l : List α) :
    (l.filter (fun a => !(p a))).filter p = [] := by
  induction l with
  | nil => rfl
  | cons a l ih =>
    by_cases h : p a <;> simp [List.filter_cons, h, ih]

/-- Extracting the components of a successful handler result. -/
theorem pair_ok_extract {A db1 : DB} {x c : Nat} {st st2 : PStatus}
    (h : ((A, Except.ok (x, st)) : DB × Except ErrorType (Nat × PStatus))
          = (db1, Except.ok (c, st2))) :
    db1 = A ∧ c = x := by
  injection h with h1 h2
  injection h2 with h2
  injection h2 with hc hst
  exact ⟨h1.symm, hc.symm⟩

/-- `findActiveSpace` only reads the space collection: it is unchanged by
updates to the participation collection or the id counter. -/
theorem findActiveSpace_participates_irrel (db : DB) (l : List Participate)
    (n spaceId : Nat) :
    findActiveSpace { db with participates := l, nextId := n } spaceId
      = findActiveSpace db spaceId := rfl

/-- C4: whenever a participate request resolves to the queue verdict (the
result is a `WAITING` record), the store afterwards holds exactly the old
records of other (user, space) pairs plus the one fresh `WAITING` record: all
prior records of the requesting pair were deleted first, so at most one
non-discarded record of the pair remains — the new `WAITING` one. -/
theorem queue_discards_history (db : DB) (userId spaceId : Nat) (pw : Option String)
    (db1 : DB) (c : Nat)
    (h : participate db userId spaceId pw = (db1, .ok (c, .WAITING))) :
    db1.participates
      = (db.participates.filter (fun p => !(p.userId == userId && p.spaceId == spaceId)))
        ++ [⟨c, userId, spaceId, .WAITING⟩]
    ∧ db1.participates.filter (fun p => p.userId == userId && p.spaceId == spaceId)
      = [⟨c, userId, spaceId, .WAITING⟩] := by
  unfold participate createParticipate deleteManyParticipates at h
  have key : db1 = { db with
      participates :=
        (db.participates.filter (fun p => !(p.userId == userId && p.spaceId == spaceId)))
          ++ [⟨db.nextId, userId, spaceId, .WAITING⟩],
      nextId := db.nextId + 1 } ∧ c = db.nextId := by
    split at h
    · simp at h
    · split at h
      · simp at h
      · split at h
        · split at h
          · simp at h
          · exact pair_ok_extract h
        · split at h
          · simp at h
          · split at h
            · simp at h
            · simp at h
  obtain ⟨hdb1, hc⟩ := key
  subst hdb1; subst hc
  refine ⟨rfl, ?_⟩
  simp [List.filter_append, filter_not_filter, List.filter_cons]

/-- Witness for C4: a second lobby request by user 20 for space `spC`, made
when the store already holds that pair's earlier `WAITING` record, leaves
exactly one record for the pair — the fresh `WAITING` one. -/
theorem queue_discards_history_witness :
    ((participate ⟨[spC], [⟨0, 20, 3, .WAITING⟩], 1⟩ 20 3 none).1.participates
      = [⟨1, 20, 3, .WAITING⟩])
    ∧ (participate ⟨[spC], [⟨0, 20, 3, .WAITING⟩], 1⟩ 20 3 none).1.participates.filter
        (fun p => p.userId == 20 && p.spaceId == 3)
      = [⟨1, 20, 3, .WAITING⟩] :=
  ⟨(queue_discards_history ⟨[spC], [⟨0, 20, 3, .WAITING⟩], 1⟩ 20 3 none _ 1 rfl).1,
   (queue_discards_history ⟨[spC], [⟨0, 20, 3, .WAITING⟩], 1⟩ 20 3 none _ 1 rfl).2⟩

/-- C10: an immediately accepted participate request (owner short-circuit,
open space, or correct password) appends one `ACCEPTED` record without
deleting anything, so the count of `ACCEPTED` records of the (user, space)
pair grows by one on every accepted join, and the participants query then
returns one entry per record — the same user once per accepted join. -/
theorem accepted_appends_record (db : DB) (userId spaceId : Nat) (pw : Option String)
    (db1 : DB) (c : Nat)
    (h : participate db userId spaceId pw = (db1, .ok (c, .ACCEPTED))) :
    db1.participates = db.participates ++ [⟨c, userId, spaceId, .ACCEPTED⟩]
    ∧ (db1.participates.filter
        (fun p => p.userId == userId && p.spaceId == spaceId
          && p.status == PStatus.ACCEPTED)).length
      = (db.participates.filter
        (fun p => p.userId == userId && p.spaceId == spaceId
          && p.status == PStatus.ACCEPTED)).length + 1
    ∧ activeParticipants db1 spaceId
      = .ok (db.participates.filter
              (fun p => p.spaceId == spaceId && p.status == PStatus.ACCEPTED)
             ++ [⟨c, userId, spaceId, .ACCEPTED⟩]) := by
  unfold participate createParticipate at h
  have key : (db1 = { db with
      participates := db.participates ++ [⟨db.nextId, userId, spaceId, .ACCEPTED⟩],
      nextId := db.nextId + 1 } ∧ c = db.nextId)
      ∧ ∃ space, findActiveSpace db spaceId = some space := by
    split at h
    · simp at h
    · rename_i x s heq
      refine ⟨?_, s, heq⟩
      split at h
      · exact pair_ok_extract h
      · split at h
        · split at h
          · exact pair_ok_extract h
          · simp at h
        · split at h
          · exact pair_ok_extract h
          · split at h
            · exact pair_ok_extract h
            · simp at h
  obtain ⟨⟨hdb1, hc⟩, space, hs⟩ := key
  subst hdb1; subst hc
  refine ⟨rfl, ?_, ?_⟩
  · simp [List.filter_append, List.filter_cons]
  · simp [activeParticipants, findActiveSpace_participates_irrel, hs,
      List.filter_append, List.filter_cons]

/-- Witness for C10: a second accepted join of user 20 into the open non-lobby
space — the store already holds one `ACCEPTED` record of the pair and the
request appends a second one, which the participants query also lists. -/
theorem accepted_appends_record_witness :
    ((participate ⟨[⟨4, 10, false, false, "", true⟩], [⟨0, 20, 4, .ACCEPTED⟩], 1⟩
        20 4 none).1.participates
      = [⟨0, 20, 4, .ACCEPTED⟩, ⟨1, 20, 4, .ACCEPTED⟩])
    ∧ ((participate ⟨[⟨4, 10, false, false, "", true⟩], [⟨0, 20, 4, .ACCEPTED⟩], 1⟩
        20 4 none).1.participates.filter
        (fun p => p.userId == 20 && p.spaceId == 4
          && p.status == PStatus.ACCEPTED)).length
      = ([(⟨0, 20, 4, .ACCEPTED⟩ : Participate)].filter
        (fun p => p.userId == 20 && p.spaceId == 4
          && p.status == PStatus.ACCEPTED)).length + 1 :=
  ⟨(accepted_appends_record ⟨[⟨4, 10, false, false, "", true⟩],
      [⟨0, 20, 4, .ACCEPTED⟩], 1⟩ 20 4 none _ 1 rfl).1,
   (accepted_appends_record ⟨[⟨4, 10, false, false, "", true⟩],
      [⟨0, 20, 4, .ACCEPTED⟩], 1⟩ 20 4 none _ 1 rfl).2.1⟩

/-- Looking up a record after `updateOne({_id: candId}, {status})` finds the
same record with the new status. -/
theorem find_after_update (db : DB) (candId : Nat) (st : PStatus)
    (p : Participate) (hp : findParticipateById db candId = some p) :
    findParticipateById (updateParticipateStatus db candId st) candId
      = some { p with status := st } := by
  unfold findParticipateById at hp ⊢
  have hpc : p.id = candId := by simpa using List.find?_some hp
  unfold updateParticipateStatus
  rw [List.find?_map]
  have hcomp : ((fun q : Participate => q.id == candId) ∘
      (fun q : Participate => if q.id == candId then { q with status := st } else q))
      = fun q : Participate => q.id == candId := by
    funext q
    by_cases hq : q.id = candId <;> simp [hq]
  rw [hcomp, hp]
  simp [hpc]

/-- A space used by the terminal-state experiments: open, non-lobby. -/
def spE : Space := ⟨5, 10, false, false, "", true⟩

/-- Store holding `spE` and a participation record of user 20 that already
carries the terminal status `REJECTED`. -/
def dbE : DB := ⟨[spE], [⟨7, 20, 5, .REJECTED⟩], 50⟩

/-- Counterexample to C5: record 7 of space `spE` has the terminal status
`REJECTED`, yet the owner's accept call succeeds and changes that status to
`ACCEPTED` — an operation of the system moves a record out of a terminal
state. -/
theorem terminal_status_counterexample :
    findParticipateById dbE 7 = some ⟨7, 20, 5, .REJECTED⟩
    ∧ (acceptCandidate dbE 10 5 7).2 = .ok ()
    ∧ findParticipateById (acceptCandidate dbE 10 5 7).1 7
      = some ⟨7, 20, 5, .ACCEPTED⟩ := by
  refine ⟨rfl, rfl, rfl⟩

/-- C5 (amended): the accept, reject, and cancel operations never inspect the
record's current status — whenever their existence (and for accept/reject,
ownership) checks pass they overwrite the status with `ACCEPTED`, `REJECTED`,
`CANCELED` respectively, whatever it was before; so `ACCEPTED`, `REJECTED`
and `CANCELED` are not terminal, and `WAITING` is not the only state with
outgoing transitions. -/
theorem status_overwritten_unconditionally (db : DB) (spaceId candId : Nat)
    (space : Space) (p : Participate)
    (hs : findActiveSpace db spaceId = some space)
    (hp : findParticipateById db candId = some p) :
    acceptCandidate db space.ownerId spaceId candId
      = (updateParticipateStatus db candId .ACCEPTED, .ok ())
    ∧ rejectCandidate db space.ownerId spaceId candId
      = (updateParticipateStatus db candId .REJECTED, .ok ())
    ∧ ∀ userId, cancelCandidate db userId spaceId candId
      = (updateParticipateStatus db candId .CANCELED, .ok ()) := by
  refine ⟨?_, ?_, fun userId => ?_⟩ <;>
    simp [acceptCandidate, rejectCandidate, cancelCandidate, hs, hp]

/-- Witness for the amended C5: on the store `dbE`, whose only record is
`REJECTED`, all three operations overwrite the status. -/
theorem status_overwritten_unconditionally_witness :
    acceptCandidate dbE 10 5 7 = (updateParticipateStatus dbE 7 .ACCEPTED, .ok ())
    ∧ rejectCandidate dbE 10 5 7 = (updateParticipateStatus dbE 7 .REJECTED, .ok ())
    ∧ cancelCandidate dbE 99 5 7 = (updateParticipateStatus dbE 7 .CANCELED, .ok ()) :=
  ⟨(status_overwritten_unconditionally dbE 5 7 spE ⟨7, 20, 5, .REJECTED⟩ rfl rfl).1,
   (status_overwritten_unconditionally dbE 5 7 spE ⟨7, 20, 5, .REJECTED⟩ rfl rfl).2.1,
   (status_overwritten_unconditionally dbE 5 7 spE ⟨7, 20, 5, .REJECTED⟩ rfl rfl).2.2 99⟩

/-- C6: for accept and reject — a missing or soft-deleted space yields the
space error and a missing record yields the candidate error, both leaving the
store untouched; an existing record acted on by a non-owner yields `Forbidden`
with the store (hence the record's status) unchanged; only the owner's call
sets the status to `ACCEPTED` (resp. `REJECTED`). -/
theorem accept_reject_guards (db : DB) (userId spaceId candId : Nat) :
    (findActiveSpace db spaceId = none →
      acceptCandidate db userId spaceId candId = (db, .error .SpaceNotExist)
      ∧ rejectCandidate db userId spaceId candId = (db, .error .SpaceNotExist))
    ∧ ∀ space, findActiveSpace db spaceId = some space →
        (findParticipateById db candId = none →
          acceptCandidate db userId spaceId candId = (db, .error .CandidateNotExist)
          ∧ rejectCandidate db userId spaceId candId = (db, .error .CandidateNotExist))
        ∧ ∀ p, findParticipateById db candId = some p →
            (userId ≠ space.ownerId →
              acceptCandidate db userId spaceId candId = (db, .error .Forbidden)
              ∧ rejectCandidate db userId spaceId candId = (db, .error .Forbidden))
            ∧ (userId = space.ownerId →
              acceptCandidate db userId spaceId candId
                = (updateParticipateStatus db candId .ACCEPTED, .ok ())
              ∧ findParticipateById (acceptCandidate db userId spaceId candId).1 candId
                = some { p with status := .ACCEPTED }
              ∧ rejectCandidate db userId spaceId candId
                = (updateParticipateStatus db candId .REJECTED, .ok ())
              ∧ findParticipateById (rejectCandidate db userId spaceId candId).1 candId
                = some { p with status := .REJECTED }) := by
  refine ⟨fun hn => ?_, fun space hs => ⟨fun hpn => ?_, fun p hp => ⟨fun hown => ?_,
    fun hown => ?_⟩⟩⟩
  · exact ⟨by simp [acceptCandidate, hn], by simp [rejectCandidate, hn]⟩
  · exact ⟨by simp [acceptCandidate, hs, hpn], by simp [rejectCandidate, hs, hpn]⟩
  · have hne : (space.ownerId == userId) = false := beq_eq_false_iff_ne.mpr (Ne.symm hown)
    exact ⟨by simp [acceptCandidate, hs, hp, hne], by simp [rejectCandidate, hs, hp, hne]⟩
  · have ha : acceptCandidate db userId spaceId candId
        = (updateParticipateStatus db candId .ACCEPTED, .ok ()) := by
      simp [acceptCandidate, hs, hp, hown]
    have hr : rejectCandidate db userId spaceId candId
        = (updateParticipateStatus db candId .REJECTED, .ok ()) := by
      simp [rejectCandidate, hs, hp, hown]
    exact ⟨ha, by rw [ha]; exact find_after_update db candId _ p hp,
      hr, by rw [hr]; exact find_after_update db candId _ p hp⟩

/-- Witness for C6: on `dbE`, user 99 (not the owner) can neither accept nor
reject record 7 — both calls answer `Forbidden` and leave the store as it
was. -/
theorem accept_reject_guards_witness :
    acceptCandidate dbE 99 5 7 = (dbE, .error .Forbidden)
    ∧ rejectCandidate dbE 99 5 7 = (dbE, .error .Forbidden) :=
  (((accept_reject_guards dbE 99 5 7).2 spE rfl).2 ⟨7, 20, 5, .REJECTED⟩ rfl).1 (by decide)

/-- C7: cancel checks that the space and the record exist (answering the
not-found errors otherwise) and then sets the status to `CANCELED` for any
caller — the result is the same for every acting user, because the handler
never compares the caller's identity with the record's user or the space
owner. -/
theorem cancel_no_ownership_check (db : DB) (userId spaceId candId : Nat) :
    (findActiveSpace db spaceId = none →
      cancelCandidate db userId spaceId candId = (db, .error .SpaceNotExist))
    ∧ (∀ space, findActiveSpace db spaceId = some space →
        (findParticipateById db candId = none →
          cancelCandidate db userId spaceId candId = (db, .error .CandidateNotExist))
        ∧ ∀ p, findParticipateById db candId = some p →
            cancelCandidate db userId spaceId candId
              = (updateParticipateStatus db candId .CANCELED, .ok ())
            ∧ findParticipateById (cancelCandidate db userId spaceId candId).1 candId
              = some { p with status := .CANCELED })
    ∧ ∀ userId2, cancelCandidate db userId2 spaceId candId
        = cancelCandidate db userId spaceId candId := by
  refine ⟨fun hn => by simp [cancelCandidate, hn],
    fun space hs => ⟨fun hpn => by simp [cancelCandidate, hs, hpn], fun p hp => ?_⟩,
    fun userId2 => rfl⟩
  have hc : cancelCandidate db userId spaceId candId
      = (updateParticipateStatus db candId .CANCELED, .ok ()) := by
    simp [cancelCandidate, hs, hp]
  exact ⟨hc, by rw [hc]; exact find_after_update db candId _ p hp⟩

/-- Witness for C7: user 99, who neither owns space `spE` nor made record 7
(that was user 20), cancels the record successfully. -/
theorem cancel_no_ownership_check_witness :
    cancelCandidate dbE 99 5 7 = (updateParticipateStatus dbE 7 .CANCELED, .ok ())
    ∧ findParticipateById (cancelCandidate dbE 99 5 7).1 7
      = some ⟨7, 20, 5, .CANCELED⟩ :=
  (((cancel_no_ownership_check dbE 99 5 7).2.1 spE rfl).2 ⟨7, 20, 5, .REJECTED⟩ rfl)

/-- C8: for an existing, non-soft-deleted space, the candidates query returns
exactly the participation records of that space whose status is `WAITING` or
`CANCELED` — canceled records stay visible, accepted and rejected ones are
excluded. -/
theorem pending_candidates_filter (db : DB) (spaceId : Nat) (space : Space)
    (hs : findActiveSpace db spaceId = some space) :
    pendingCandidates db spaceId
      = .ok (db.participates.filter
          (fun p => (p.status == .WAITING || p.status == .CANCELED) && p.spaceId == spaceId))
    ∧ ∀ p : Participate,
        p ∈ db.participates.filter
          (fun p => (p.status == .WAITING || p.status == .CANCELED) && p.spaceId == spaceId)
        ↔ p ∈ db.participates
          ∧ (p.status = .WAITING ∨ p.status = .CANCELED) ∧ p.spaceId = spaceId := by
  refine ⟨by simp [pendingCandidates, hs], fun p => ?_⟩
  simp [List.mem_filter, and_assoc]

/-- Store with one record in every status, plus a `WAITING` record of another
space, used to exercise the queries. -/
def dbQ : DB := ⟨[spC],
  [⟨0, 20, 3, .WAITING⟩, ⟨1, 21, 3, .ACCEPTED⟩, ⟨2, 22, 3, .CANCELED⟩,
   ⟨3, 23, 3, .REJECTED⟩, ⟨4, 24, 9, .WAITING⟩], 5⟩

/-- Witness for C8: on `dbQ`, space 3's candidate list is the `WAITING` and
`CANCELED` records of space 3 — the `ACCEPTED` and `REJECTED` ones and the
other space's record are gone. -/
theorem pending_candidates_filter_witness :
    pendingCandidates dbQ 3 = .ok [⟨0, 20, 3, .WAITING⟩, ⟨2, 22, 3, .CANCELED⟩] :=
  (pending_candidates_filter dbQ 3 spC rfl).1

/-- C9: for an existing, non-soft-deleted private space, the password endpoint
hands the stored plaintext password to any authenticated requester — the
result does not depend on who asks, as no ownership or membership check is
performed; for a non-private space it answers an error instead. -/
theorem password_disclosure (db : DB) (userId spaceId : Nat) (space : Space)
    (hs : findActiveSpace db spaceId = some space) :
    (space.privateYN = true →
      getSpacePassword db userId spaceId = .ok (space.id, space.password))
    ∧ (space.privateYN = false →
      getSpacePassword db userId spaceId = .error .NotPrivate)
    ∧ ∀ userId2, getSpacePassword db userId2 spaceId
        = getSpacePassword db userId spaceId := by
  refine ⟨fun hp => ?_, fun hp => ?_, fun userId2 => rfl⟩ <;>
    simp [getSpacePassword, hs, hp]

/-- Witness for C9: user 999, unrelated to space `spB` (owned by user 10),
reads its stored plaintext password `"abc"`. -/
theorem password_disclosure_witness :
    getSpacePassword dbB 999 1 = .ok (1, "abc") :=
  (password_disclosure dbB 999 1 spB rfl).1 rfl

end Vridge
